import Mathlib

/-
Verification of the neo-4j-mcp server (src/mcp-server/src/server.py) and the
CrewAI client shim (src/graph_agent.py), as a shallow embedding in Lean.

Values crossing the Python / Cypher / JSON boundary are modelled by `PyVal`.
A Neo4j statement is the pair of its query text and its bound-parameter map;
each MCP tool handler is embedded as a function from a store oracle (the
Neo4j session, which may raise) to the list of statements it issues together
with the envelope dictionary it returns.
-/

/-- A Python/JSON/Neo4j value: scalars, Neo4j nodes and relationships
(the store-native structural type, carrying identity, labels and a property
map), lists, and string-keyed dictionaries. -/
inductive PyVal where
  | vnull : PyVal
  | vbool : Bool → PyVal
  | vint : Int → PyVal
  | vstr : String → PyVal
  | vnode : Int → List String → List (String × PyVal) → PyVal
  | vlist : List PyVal → PyVal
  | vdict : List (String × PyVal) → PyVal

/-- A record row returned by the driver, and also a Python dict of values. -/
abbrev NRecord := List (String × PyVal)

/-- A Cypher statement as handed to `session.run`: query text plus the
bound-parameter dictionary. -/
structure Statement where
  query : String
  params : NRecord

/-- The Neo4j session oracle: running a statement either yields result
records or raises (any driver/database exception, rendered as its message).
`get_neo4j_driver` / connection failures are subsumed by the error case. -/
structure Store where
  run : Statement → Except String (List NRecord)

/-- Observable outcome of one tool handler call: the statements it issued to
the store, and the envelope dictionary it returned. -/
structure OpResult where
  issued : List Statement
  envelope : PyVal

/-- Lookup in an envelope dictionary. -/
def dictGet : PyVal → String → Option PyVal
  | .vdict kvs, k => kvs.lookup k
  | _, _ => none

/-- The boolean `success` flag of an envelope, when present. -/
def envSuccess (env : PyVal) : Option Bool :=
  match dictGet env "success" with
  | some (.vbool b) => some b
  | _ => none

/-- The spec's identifier-safe test: nonempty, alphanumeric/underscore only. -/
def isIdentChar (c : Char) : Bool := c.isAlphanum || c == '_'

/-- A label or key is identifier-safe when nonempty and made of identifier
characters only (the spec's notion; server.py contains no such check). -/
def isIdentifierSafe (s : String) : Bool := !s.isEmpty && s.data.all isIdentChar

/-- Python's `sep.join(parts)` (server.py lines 156 and 208). -/
def pyJoin (sep : String) : List String → String
  | [] => ""
  | [x] => x
  | x :: y :: xs => x ++ sep ++ pyJoin sep (y :: xs)

/-- Whether `needle` occurs as contiguous literal text inside `hay`. -/
def strOccursIn (needle hay : String) : Prop := ∃ s t : String, hay = s ++ needle ++ t

/-- `hasattr(value, '__dict__')` (server.py line 72): true exactly for the
store-native structural objects (nodes/relationships). -/
def hasDict : PyVal → Bool
  | .vnode _ _ _ => true
  | _ => false

/-- `dict(value)` on a Neo4j node or relationship (server.py line 74):
yields its property map; other values are untouched by the caller. -/
def dictOfNative : PyVal → PyVal
  | .vnode _ _ props => .vdict props
  | v => v

/-- The record normalizer of `run_cypher_query` (server.py lines 64-77):
each top-level value with `__dict__` is replaced by `dict(value)`, every
other value passes through unchanged. -/
def convertRecord (r : NRecord) : NRecord :=
  r.map (fun kv => (kv.1, if hasDict kv.2 then dictOfNative kv.2 else kv.2))

/-- Whether a value contains a store-native structural object at any
nesting depth. -/
def containsNative : PyVal → Bool
  | .vnode _ _ _ => true
  | .vlist [] => false
  | .vlist (v :: vs) => containsNative v || containsNative (.vlist vs)
  | .vdict [] => false
  | .vdict (kv :: kvs) => containsNative kv.2 || containsNative (.vdict kvs)
  | _ => false
termination_by v => sizeOf v
decreasing_by
  all_goals simp_wf
  all_goals try omega
  all_goals
    have h2 : sizeOf kv.2 < sizeOf kv := by
      rcases kv with ⟨a, b⟩
      simp
  all_goals omega

/-- A value is shallow-safe when the only store-native object in it, if any,
is the value itself (so one level of unwrapping suffices). -/
def shallowSafe : PyVal → Bool
  | .vnode _ _ props => !containsNative (.vdict props)
  | v => !containsNative v

/-- The statement issued by `run_cypher_query` (server.py lines 55-62):
the caller's query text verbatim, with `parameters or {}` bound. -/
def cypherStatement (query : String) (parameters : Option NRecord) : Statement :=
  ⟨query, parameters.getD []⟩

/-- `run_cypher_query` (server.py lines 44-91). -/
def run_cypher_query (store : Store) (query : String) (parameters : Option NRecord) : OpResult :=
  let stmt := cypherStatement query parameters
  let env :=
    match store.run stmt with
    | .ok records =>
        .vdict [("success", .vbool true),
                ("records", .vlist (records.map (fun r => .vdict (convertRecord r)))),
                ("count", .vint records.length),
                ("query", .vstr query)]
    | .error e =>
        .vdict [("success", .vbool false), ("error", .vstr e), ("query", .vstr query)]
  ⟨[stmt], env⟩

/-- The CREATE query text built by `create_node` (server.py lines 156-157):
label and property keys are interpolated verbatim, values appear only as
`$key` parameter references. -/
def createNodeQuery (label : String) (properties : NRecord) : String :=
  "CREATE (n:" ++ label ++ " \x7b" ++
    pyJoin ", " (properties.map (fun kv => kv.1 ++ ": $" ++ kv.1)) ++
    "\x7d) RETURN n"

/-- The statement issued by `create_node` (server.py line 160): the built
query with the property dictionary bound as parameters. -/
def createNodeStatement (label : String) (properties : NRecord) : Statement :=
  ⟨createNodeQuery label properties, properties⟩

/-- Reading `.labels` / `.id` / `dict(..)` off a record value: succeeds only
on a node, otherwise the AttributeError is raised. -/
def asNode : PyVal → Except String (Int × List String × NRecord)
  | .vnode i ls ps => .ok (i, ls, ps)
  | _ => .error "AttributeError: value is not a node"

/-- `result.single()["n"]` (server.py line 161): exactly one record is
required and it must carry a node under key `n`; anything else raises. -/
def singleN (records : List NRecord) : Except String (Int × List String × NRecord) :=
  match records with
  | [r] =>
      match r.lookup "n" with
      | some v => asNode v
      | none => .error "KeyError: n"
  | _ => .error "ResultError: not exactly one record"

/-- The failure envelope of `create_node` (server.py lines 170-176). -/
def createFailEnv (e : String) (label : String) (properties : NRecord) : PyVal :=
  .vdict [("success", .vbool false), ("error", .vstr e),
          ("label", .vstr label), ("properties", .vdict properties)]

/-- `create_node` (server.py lines 141-176). -/
def create_node (store : Store) (label : String) (properties : NRecord) : OpResult :=
  let stmt := createNodeStatement label properties
  let env :=
    match store.run stmt with
    | .error e => createFailEnv e label properties
    | .ok records =>
        match singleN records with
        | .error e => createFailEnv e label properties
        | .ok (i, ls, ps) =>
            .vdict [("success", .vbool true), ("node", .vdict ps),
                    ("labels", .vlist (ls.map PyVal.vstr)), ("id", .vint i)]
  ⟨[stmt], env⟩

/-- Python truthiness of an optional string (`if label:`, server.py 195). -/
def pyTruthyStr : Option String → Bool
  | none => false
  | some s => !s.isEmpty

/-- Python truthiness of an optional dict (`if properties:`, server.py 203). -/
def pyTruthyDict : Option NRecord → Bool
  | none => false
  | some kvs => !kvs.isEmpty

/-- The MATCH clause of `find_nodes` (server.py lines 195-198). -/
def findMatchClause (label : Option String) : String :=
  if pyTruthyStr label then "MATCH (n:" ++ label.getD "" ++ ")" else "MATCH (n)"

/-- The WHERE fragments of `find_nodes` (server.py lines 200-206): one
`n.key = $key` per filter entry, keys interpolated verbatim. -/
def findWhereList (properties : Option NRecord) : List String :=
  if pyTruthyDict properties then
    (properties.getD []).map (fun kv => "n." ++ kv.1 ++ " = $" ++ kv.1)
  else []

/-- The WHERE clause of `find_nodes` (server.py line 208). -/
def findWhereClause (properties : Option NRecord) : String :=
  if (findWhereList properties).isEmpty then ""
  else " WHERE " ++ pyJoin " AND " (findWhereList properties)

/-- The query text built by `find_nodes` (server.py line 210). -/
def findNodesQuery (label : Option String) (properties : Option NRecord) : String :=
  findMatchClause label ++ findWhereClause properties ++ " RETURN n LIMIT $limit"

/-- Python dict assignment `d[k] = v`: overwrite in place, or append. -/
def dictInsert (kvs : NRecord) (k : String) (v : PyVal) : NRecord :=
  if kvs.any (fun kv => kv.1 == k) then
    kvs.map (fun kv => if kv.1 == k then (k, v) else kv)
  else kvs ++ [(k, v)]

/-- The parameter dict of `find_nodes` (server.py lines 201-206): starts as
`{"limit": limit}`, then each filter entry is assigned in. -/
def findNodesParams (properties : Option NRecord) (limit : Int) : NRecord :=
  (if pyTruthyDict properties then properties.getD [] else []).foldl
    (fun acc kv => dictInsert acc kv.1 kv.2) [("limit", PyVal.vint limit)]

/-- The statement issued by `find_nodes` (server.py line 213). -/
def findNodesStatement (label : Option String) (properties : Option NRecord) (limit : Int) : Statement :=
  ⟨findNodesQuery label properties, findNodesParams properties limit⟩

/-- One entry of the `nodes` list built by `find_nodes` (server.py 216-222):
`record["n"]` must exist and be a node, else the exception propagates to the
handler's catch-all. -/
def foundNodeDict (v : PyVal) : Except String PyVal :=
  match asNode v with
  | .ok (i, ls, ps) =>
      .ok (.vdict [("properties", .vdict ps),
                   ("labels", .vlist (ls.map PyVal.vstr)), ("id", .vint i)])
  | .error e => .error e

/-- The node-list extraction loop of `find_nodes` (server.py lines 215-222). -/
def extractFound (records : List NRecord) : Except String (List PyVal) :=
  records.mapM (fun r =>
    match r.lookup "n" with
    | some v => foundNodeDict v
    | none => .error "KeyError: n")

/-- The failure envelope of `find_nodes` (server.py lines 231-237). -/
def findFailEnv (e : String) (label : Option String) (properties : Option NRecord) : PyVal :=
  .vdict [("success", .vbool false), ("error", .vstr e),
          ("label", match label with | some s => .vstr s | none => .vnull),
          ("properties", match properties with | some ps => .vdict ps | none => .vnull)]

/-- `find_nodes` (server.py lines 179-237). -/
def find_nodes (store : Store) (label : Option String) (properties : Option NRecord) (limit : Int) : OpResult :=
  let stmt := findNodesStatement label properties limit
  let env :=
    match store.run stmt with
    | .error e => findFailEnv e label properties
    | .ok records =>
        match extractFound records with
        | .error e => findFailEnv e label properties
        | .ok nodes =>
            .vdict [("success", .vbool true), ("nodes", .vlist nodes),
                    ("count", .vint nodes.length),
                    ("query", .vstr (findNodesQuery label properties))]
  ⟨[stmt], env⟩

/-- `find_nodes` with the `limit` argument omitted: the Python default
`limit=10` applies (server.py line 179). -/
def find_nodes_default (store : Store) (label : Option String) (properties : Option NRecord) : OpResult :=
  find_nodes store label properties 10

/-- The data gathered by `get_database_info` on its success path
(server.py lines 101-123). -/
structure DbInfo where
  info : NRecord
  labels : List String
  relTypes : List String
  nodeCount : Int
  relCount : Int

/-- `get_database_info` (server.py lines 94-138), as a function of the
outcome of its store interactions: success data or a raised exception. -/
def get_database_info (outcome : Except String DbInfo) : PyVal :=
  match outcome with
  | .ok d =>
      .vdict [("success", .vbool true), ("database_info", .vdict d.info),
              ("node_labels", .vlist (d.labels.map PyVal.vstr)),
              ("relationship_types", .vlist (d.relTypes.map PyVal.vstr)),
              ("node_count", .vint d.nodeCount),
              ("relationship_count", .vint d.relCount)]
  | .error e =>
      .vdict [("success", .vbool false), ("error", .vstr e)]

/-- The configured URI and credentials (server.py lines 11-13). -/
structure DriverConfig where
  uri : String
  username : String
  password : String

/-- A driver handle; `hid` distinguishes successive creations. -/
structure DriverHandle where
  hid : Nat
  uri : String
  username : String
  password : String

/-- The module-level driver singleton state (server.py line 24), plus a
fresh-handle counter and the log of closed handles for observation. -/
structure DriverState where
  driver : Option DriverHandle
  nextHid : Nat
  closedHids : List Nat

/-- `get_neo4j_driver` (server.py lines 26-34). -/
def get_neo4j_driver (cfg : DriverConfig) (s : DriverState) : DriverHandle × DriverState :=
  match s.driver with
  | some d => (d, s)
  | none =>
      let d : DriverHandle := ⟨s.nextHid, cfg.uri, cfg.username, cfg.password⟩
      (d, ⟨some d, s.nextHid + 1, s.closedHids⟩)

/-- `close_driver` (server.py lines 36-41). -/
def close_driver (s : DriverState) : DriverState :=
  match s.driver with
  | some d => ⟨none, s.nextHid, s.closedHids ++ [d.hid]⟩
  | none => s

/-- Where a client-shim call can fail: opening the HTTP client (server
unreachable), the session handshake, the tool invocation, or parsing the
response text; or it completes with the parsed response. -/
inductive McpOutcome where
  | connectError : String → McpOutcome
  | handshakeError : String → McpOutcome
  | callError : String → McpOutcome
  | parseError : String → McpOutcome
  | ok : PyVal → McpOutcome

/-- `Neo4jMCPTool._execute_mcp_call` (graph_agent.py lines 62-71): the whole
call sequence sits in one try block whose catch-all returns the failure
envelope. -/
def execute_mcp_call (toolName : String) (arguments : NRecord) (outcome : McpOutcome) : PyVal :=
  match toolName, arguments, outcome with
  | _, _, .ok v => v
  | _, _, .connectError e => .vdict [("success", .vbool false), ("error", .vstr e)]
  | _, _, .handshakeError e => .vdict [("success", .vbool false), ("error", .vstr e)]
  | _, _, .callError e => .vdict [("success", .vbool false), ("error", .vstr e)]
  | _, _, .parseError e => .vdict [("success", .vbool false), ("error", .vstr e)]

/-- A node as stored by Neo4j. -/
structure StoreNode where
  nid : Int
  labels : List String
  props : NRecord

/-- The Neo4j database state, with nodes kept in insertion order. -/
structure GraphStore where
  nextNid : Int
  nodes : List StoreNode

/-- Modelled from the spec: Cypher scalar value equality, used when the
engine evaluates `n.key = $key`; the Neo4j engine itself is not part of
src/. The claims only compare string and integer property values. -/
def pyScalarEq : PyVal → PyVal → Bool
  | .vint a, .vint b => a == b
  | .vstr a, .vstr b => a == b
  | .vbool a, .vbool b => a == b
  | .vnull, .vnull => true
  | _, _ => false

/-- Modelled from the spec: a stored node matches the label restriction and
the property filter of the MATCH statement built by `find_nodes`. -/
def nodeMatches (label : Option String) (filters : NRecord) (n : StoreNode) : Bool :=
  (if pyTruthyStr label then n.labels.contains (label.getD "") else true) &&
  filters.all (fun kv =>
    match n.props.lookup kv.1 with
    | some w => pyScalarEq w kv.2
    | none => false)

/-- Modelled from the spec: the Neo4j engine executing the CREATE statement
built by `create_node`: a fresh node with the given label and the bound
property parameters is appended to the store. -/
def execCreate (g : GraphStore) (label : String) (props : NRecord) : GraphStore × StoreNode :=
  let n : StoreNode := ⟨g.nextNid, [label], props⟩
  (⟨g.nextNid + 1, g.nodes ++ [n]⟩, n)

/-- Modelled from the spec: the Neo4j engine executing the MATCH statement
built by `find_nodes`: matching nodes in insertion order, truncated to the
bound `limit`. -/
def execMatch (g : GraphStore) (label : Option String) (filters : NRecord) (limit : Nat) : List StoreNode :=
  (g.nodes.filter (nodeMatches label filters)).take limit

/-- The store state after a successful `create_node` round through the
engine model. -/
def create_node_on (g : GraphStore) (label : String) (props : NRecord) : GraphStore :=
  (execCreate g label props).1

/-- The nodes whose dictionaries a `find_nodes` call returns, under the
engine model. -/
def find_nodes_on (g : GraphStore) (label : Option String) (filters : NRecord) (limit : Nat) : List StoreNode :=
  execMatch g label filters limit

/-- A store oracle that always raises with a fixed message. -/
def downStore : Store := ⟨fun _ => .error "connection refused"⟩

/-- A store oracle on which CREATE succeeds: it answers every statement with
one record holding a node under `n` whose properties are the statement's
bound parameters. -/
def okCreateStore : Store := ⟨fun stmt => .ok [[("n", .vnode 0 ["X"] stmt.params)]]⟩

/-- The concrete property map of the round-trip claim. -/
def adaProps : NRecord := [("name", PyVal.vstr "Ada"), ("age", PyVal.vint 36)]

/-- The concrete filter map of the round-trip claim. -/
def adaFilter : NRecord := [("name", PyVal.vstr "Ada")]

/-- A store already holding ten Person nodes named Ada (and nothing else). -/
def crowdedStore : GraphStore :=
  ⟨100, (List.range 10).map (fun i => ⟨(i : Int), ["Person"], [("name", PyVal.vstr "Ada")]⟩)⟩

/-- A record whose only value is a list with a node inside it. -/
def nestedRecord : NRecord := [("x", PyVal.vlist [PyVal.vnode 7 ["Person"] []])]

/-- A record whose values are a node with scalar properties and a scalar. -/
def shallowRecord : NRecord :=
  [("a", PyVal.vnode 1 ["L"] [("k", PyVal.vstr "v")]), ("b", PyVal.vint 2)]

/-- Python's join of a nonempty list begins with its first element. -/
theorem pyJoin_cons_exists (sep x : String) (xs : List String) :
    ∃ t : String, pyJoin sep (x :: xs) = x ++ t := by
  cases xs with
  | nil => exact ⟨"", by simp [pyJoin, String.append_empty]⟩
  | cons y ys => exact ⟨sep ++ pyJoin sep (y :: ys), by simp [pyJoin, String.append_assoc]⟩

/-- Python dict assignment never deletes a present `limit` key. -/
theorem dictInsert_keeps_limit (kvs : NRecord) (k : String) (v : PyVal)
    (hk : kvs.any (fun kv => kv.1 == "limit") = true) :
    (dictInsert kvs k v).any (fun kv => kv.1 == "limit") = true := by
  unfold dictInsert
  split
  · rcases List.any_eq_true.mp hk with ⟨kv0, hmem, hlim⟩
    apply List.any_eq_true.mpr
    by_cases hek : (kv0.1 == k) = true
    · refine ⟨(k, v), List.mem_map.mpr ⟨kv0, hmem, by simp [hek]⟩, ?_⟩
      have h1 : kv0.1 = k := by simpa using hek
      simpa [← h1] using hlim
    · exact ⟨kv0, List.mem_map.mpr ⟨kv0, hmem, by simp [hek]⟩, hlim⟩
  · simp [List.any_append, hk]

/-- An occurrence survives prepending text. -/
theorem strOccursIn_append_left (s : String) {needle hay : String}
    (h : strOccursIn needle hay) : strOccursIn needle (s ++ hay) := by
  obtain ⟨a, b, rfl⟩ := h
  exact ⟨s ++ a, b, by simp [String.append_assoc]⟩

/-- An occurrence survives appending text. -/
theorem strOccursIn_append_right (t : String) {needle hay : String}
    (h : strOccursIn needle hay) : strOccursIn needle (hay ++ t) := by
  obtain ⟨a, b, rfl⟩ := h
  exact ⟨a, b ++ t, by simp [String.append_assoc]⟩

/-- A string occurs at the head of itself followed by anything. -/
theorem strOccursIn_head (x t : String) : strOccursIn x (x ++ t) := ⟨"", t, rfl⟩

/-- Folding Python dict assignments over a start dict keeps its `limit` key. -/
theorem foldl_dictInsert_keeps_limit (l : NRecord) (acc : NRecord)
    (hk : acc.any (fun kv => kv.1 == "limit") = true) :
    (l.foldl (fun a kv => dictInsert a kv.1 kv.2) acc).any (fun kv => kv.1 == "limit") = true := by
  induction l generalizing acc with
  | nil => simpa using hk
  | cons x xs ih => exact ih _ (dictInsert_keeps_limit _ _ _ hk)

/-- Unfolding `containsNative` on a dictionary cons cell. -/
theorem containsNative_dict_cons (kv : String × PyVal) (kvs : NRecord) :
    containsNative (.vdict (kv :: kvs)) = (containsNative kv.2 || containsNative (.vdict kvs)) := by
  simp [containsNative]

/-- The normalizer on a cons cell. -/
theorem convertRecord_cons (kv : String × PyVal) (rest : NRecord) :
    convertRecord (kv :: rest) =
      (kv.1, if hasDict kv.2 then dictOfNative kv.2 else kv.2) :: convertRecord rest := rfl

/-- One normalizer step on a shallow-safe value leaves nothing store-native. -/
theorem shallowSafe_convert (v : PyVal) (h : shallowSafe v = true) :
    containsNative (if hasDict v then dictOfNative v else v) = false := by
  cases v with
  | vnode i ls ps =>
      simp only [shallowSafe, Bool.not_eq_true'] at h
      simpa [hasDict, dictOfNative] using h
  | vnull => simp [hasDict, containsNative]
  | vbool b => simp [hasDict, containsNative]
  | vint n => simp [hasDict, containsNative]
  | vstr s => simp [hasDict, containsNative]
  | vlist es =>
      simp only [shallowSafe, Bool.not_eq_true'] at h
      simpa [hasDict] using h
  | vdict kvs =>
      simp only [shallowSafe, Bool.not_eq_true'] at h
      simpa [hasDict] using h

/-- Claim C1, counterexample: the label `Bad Label` contains a space, yet
`create_node` and `find_nodes` each issue one statement to the store and
succeed on a working store; no ValidationError occurs and the store is
contacted. -/
theorem c1_counterexample :
    isIdentifierSafe "Bad Label" = false ∧
    (create_node okCreateStore "Bad Label" [("name", PyVal.vstr "x")]).issued.length = 1 ∧
    envSuccess (create_node okCreateStore "Bad Label" [("name", PyVal.vstr "x")]).envelope = some true ∧
    (find_nodes okCreateStore (some "Bad Label") none 10).issued.length = 1 ∧
    envSuccess (find_nodes okCreateStore (some "Bad Label") none 10).envelope = some true :=
  ⟨by decide, rfl, rfl, rfl, rfl⟩

/-- Claim C1, amended: for every label containing non-identifier characters,
`create_node` and `find_nodes` perform no validation at all: each issues
exactly one statement, built by interpolating the label verbatim into the
query text, to the store. -/
theorem c1_amended (store : Store) (label : String) (props : NRecord) (limit : Int)
    (h : isIdentifierSafe label = false) :
    (create_node store label props).issued = [createNodeStatement label props] ∧
    (find_nodes store (some label) (some props) limit).issued =
      [findNodesStatement (some label) (some props) limit] ∧
    strOccursIn label (createNodeQuery label props) := by
  refine ⟨rfl, rfl,
    "CREATE (n:",
    " \x7b" ++ pyJoin ", " (props.map (fun kv => kv.1 ++ ": $" ++ kv.1)) ++ "\x7d) RETURN n",
    ?_⟩
  simp [createNodeQuery, String.append_assoc]

/-- Claim C1, witness for the amended theorem at the label `Bad Label`. -/
theorem c1_amended_witness :
    (create_node downStore "Bad Label" [("k", PyVal.vint 1)]).issued =
      [createNodeStatement "Bad Label" [("k", PyVal.vint 1)]] :=
  (c1_amended downStore "Bad Label" [("k", PyVal.vint 1)] 5 (by decide)).1

/-- Claim C2, counterexample: two property maps over the identifier-safe
label `Person` with the same key set but different insertion order — their
key lists are permutations of each other — make `create_node` emit
different query text, so equality of key sets alone does not give identical
statements. -/
theorem c2_counterexample :
    isIdentifierSafe "Person" = true ∧
    ([("a", PyVal.vint 1), ("b", PyVal.vint 2)].map Prod.fst).Perm
      ([("b", PyVal.vint 2), ("a", PyVal.vint 1)].map Prod.fst) ∧
    createNodeQuery "Person" [("a", PyVal.vint 1), ("b", PyVal.vint 2)] ≠
      createNodeQuery "Person" [("b", PyVal.vint 2), ("a", PyVal.vint 1)] :=
  ⟨by decide, by decide, by decide⟩

/-- Claim C2, amended: for an identifier-safe label and two property maps
with the same key sequence (equal keys in the same iteration order),
`create_node` issues exactly one statement, its bound parameters are
exactly the property map, and the query text is identical for both maps,
so no property value can change the statement's structure. -/
theorem c2_injection_safe (store : Store) (label : String) (p1 p2 : NRecord)
    (hsafe : isIdentifierSafe label = true)
    (hkeys : p1.map Prod.fst = p2.map Prod.fst) :
    (create_node store label p1).issued = [createNodeStatement label p1] ∧
    (createNodeStatement label p1).params = p1 ∧
    createNodeQuery label p1 = createNodeQuery label p2 := by
  refine ⟨rfl, rfl, ?_⟩
  have e1 : p1.map (fun kv => kv.1 ++ ": $" ++ kv.1) =
      (p1.map Prod.fst).map (fun k => k ++ ": $" ++ k) := by
    rw [List.map_map]
    rfl
  have e2 : p2.map (fun kv => kv.1 ++ ": $" ++ kv.1) =
      (p2.map Prod.fst).map (fun k => k ++ ": $" ++ k) := by
    rw [List.map_map]
    rfl
  unfold createNodeQuery
  rw [e1, e2, hkeys]

/-- Claim C2, witness: a benign and a Cypher-syntax-laden value with the
same key produce the identical query text. -/
theorem c2_witness :
    createNodeQuery "Person" [("name", PyVal.vstr "Ada")] =
      createNodeQuery "Person" [("name", PyVal.vstr "x) DETACH DELETE m //")] :=
  (c2_injection_safe downStore "Person" [("name", PyVal.vstr "Ada")]
    [("name", PyVal.vstr "x) DETACH DELETE m //")] (by decide) rfl).2.2

/-- Claim C3, counterexample: the property key `a b` is not identifier-safe,
yet `create_node` interpolates it verbatim into the query text and issues
the statement; no validation happens. -/
theorem c3_counterexample :
    isIdentifierSafe "a b" = false ∧
    (create_node okCreateStore "Person" [("a b", PyVal.vstr "x")]).issued =
      [⟨"CREATE (n:Person \x7ba b: $a b\x7d) RETURN n", [("a b", PyVal.vstr "x")]⟩] ∧
    envSuccess (create_node okCreateStore "Person" [("a b", PyVal.vstr "x")]).envelope = some true :=
  ⟨by decide, rfl, rfl⟩

/-- Claim C3, amended: property and filter keys are never validated; both
operations interpolate every key verbatim as literal text into the query
and issue the statement for any key string whatsoever. -/
theorem c3_amended (store : Store) (label k : String) (v : PyVal) (rest : NRecord) :
    (create_node store label ((k, v) :: rest)).issued =
      [createNodeStatement label ((k, v) :: rest)] ∧
    strOccursIn k (createNodeQuery label ((k, v) :: rest)) ∧
    (find_nodes store none (some ((k, v) :: rest)) 10).issued =
      [findNodesStatement none (some ((k, v) :: rest)) 10] ∧
    strOccursIn ("n." ++ k ++ " = $" ++ k) (findNodesQuery none (some ((k, v) :: rest))) := by
  refine ⟨rfl, ?_, rfl, ?_⟩
  · obtain ⟨t, ht⟩ := pyJoin_cons_exists ", " (k ++ ": $" ++ k)
      (rest.map (fun kv => kv.1 ++ ": $" ++ kv.1))
    have hJ : strOccursIn k
        (pyJoin ", " ((k ++ ": $" ++ k) :: rest.map (fun kv => kv.1 ++ ": $" ++ kv.1))) := by
      rw [ht]
      refine ⟨"", ": $" ++ k ++ t, ?_⟩
      simp [String.append_assoc]
    exact strOccursIn_append_right "\x7d) RETURN n"
      (strOccursIn_append_left ("CREATE (n:" ++ label ++ " \x7b") hJ)
  · obtain ⟨t, ht⟩ := pyJoin_cons_exists " AND " ("n." ++ k ++ " = $" ++ k)
      (rest.map (fun kv => "n." ++ kv.1 ++ " = $" ++ kv.1))
    have hJ : strOccursIn ("n." ++ k ++ " = $" ++ k)
        (pyJoin " AND "
          (("n." ++ k ++ " = $" ++ k) :: rest.map (fun kv => "n." ++ kv.1 ++ " = $" ++ kv.1))) := by
      rw [ht]
      exact strOccursIn_head _ t
    exact strOccursIn_append_right " RETURN n LIMIT $limit"
      (strOccursIn_append_left "MATCH (n)" (strOccursIn_append_left " WHERE " hJ))

/-- Claim C3, witness for the amended theorem at the key `a b`. -/
theorem c3_amended_witness :
    (create_node downStore "Person" [("a b", PyVal.vstr "x")]).issued =
      [createNodeStatement "Person" [("a b", PyVal.vstr "x")]] :=
  (c3_amended downStore "Person" "a b" (PyVal.vstr "x") []).1

/-- Claim C4: with no label and an absent or empty filter map, `find_nodes`
issues the bare match statement with no WHERE text and no label restriction,
binding only `limit`; omitting `limit` binds the default 10; and every call,
whatever its arguments, carries a `limit` key in its bound parameters and a
`LIMIT $limit` tail in its query text. -/
theorem c4_limit_behavior (store : Store) (props : Option NRecord) (limit : Int)
    (l2 : Option String) (p2 : Option NRecord) (lim2 : Int)
    (h : props = none ∨ props = some []) :
    (find_nodes store none props limit).issued =
      [⟨"MATCH (n) RETURN n LIMIT $limit", [("limit", PyVal.vint limit)]⟩] ∧
    ¬ ("WHERE".data <:+: (findNodesQuery none props).data) ∧
    (find_nodes_default store none props).issued =
      [⟨"MATCH (n) RETURN n LIMIT $limit", [("limit", PyVal.vint 10)]⟩] ∧
    (findNodesParams p2 lim2).any (fun kv => kv.1 == "limit") = true ∧
    strOccursIn " RETURN n LIMIT $limit" (findNodesQuery l2 p2) := by
  have h4 : (findNodesParams p2 lim2).any (fun kv => kv.1 == "limit") = true := by
    unfold findNodesParams
    exact foldl_dictInsert_keeps_limit _ _ (by simp)
  have h5 : strOccursIn " RETURN n LIMIT $limit" (findNodesQuery l2 p2) :=
    ⟨findMatchClause l2 ++ findWhereClause p2, "",
      by simp [findNodesQuery, String.append_empty, String.append_assoc]⟩
  rcases h with h | h <;> subst h
  · exact ⟨rfl, by decide, rfl, h4, h5⟩
  · exact ⟨rfl, by decide, rfl, h4, h5⟩

/-- Claim C4, witness at an empty filter map and limit 3. -/
theorem c4_witness :
    (find_nodes downStore none (some []) 3).issued =
      [⟨"MATCH (n) RETURN n LIMIT $limit", [("limit", PyVal.vint 3)]⟩] :=
  (c4_limit_behavior downStore (some []) 3 none none 0 (Or.inr rfl)).1

/-- Claim C5, counterexample: with an empty property map the creation
statement does contain property-map braces — it is exactly
`CREATE (n:Person` followed by a space, an empty brace pair, and
`) RETURN n`. -/
theorem c5_counterexample :
    (createNodeQuery "Person" []).data.contains (Char.ofNat 123) = true ∧
    (createNodeQuery "Person" []).data.contains (Char.ofNat 125) = true ∧
    createNodeQuery "Person" [] = "CREATE (n:Person \x7b\x7d) RETURN n" :=
  ⟨by decide, by decide, rfl⟩

/-- Claim C5, amended: for an identifier-safe label and an empty property
map, `create_node` issues one statement whose property block is present but
empty: an adjacent open-close brace pair with no entries, and no bound
parameters. -/
theorem c5_amended (store : Store) (label : String)
    (hsafe : isIdentifierSafe label = true) :
    (create_node store label []).issued =
      [⟨"CREATE (n:" ++ label ++ " \x7b\x7d) RETURN n", []⟩] := by
  have hm : (" \x7b" : String) ++ "\x7d) RETURN n" = " \x7b\x7d) RETURN n" := rfl
  show [createNodeStatement label []] = _
  unfold createNodeStatement
  have hq : createNodeQuery label [] = "CREATE (n:" ++ label ++ " \x7b\x7d) RETURN n" := by
    simp [createNodeQuery, pyJoin, String.append_empty, String.append_assoc, hm]
  rw [hq]

/-- Claim C5, witness at the label `Person`. -/
theorem c5_amended_witness :
    (create_node downStore "Person" []).issued =
      [⟨"CREATE (n:" ++ "Person" ++ " \x7b\x7d) RETURN n", []⟩] :=
  c5_amended downStore "Person" (by decide)

/-- Claim C6, counterexample: a record holding a node inside a list passes
through the normalizer unchanged, so the normalized output still contains a
store-native object — the unwrapping is not recursive. -/
theorem c6_counterexample :
    convertRecord nestedRecord = nestedRecord ∧
    containsNative (.vdict (convertRecord nestedRecord)) = true :=
  ⟨rfl, by simp [convertRecord, nestedRecord, containsNative, hasDict]⟩

/-- Claim C6, amended: the normalizer unwraps only the top level of each
record value — a node value becomes its property map, every other value
passes through unchanged — so the output is free of store-native objects
exactly when store-native objects occur at most at the top level of the
record's values. -/
theorem c6_amended (r : NRecord) (h : r.all (fun kv => shallowSafe kv.2) = true) :
    containsNative (.vdict (convertRecord r)) = false := by
  induction r with
  | nil => simp [convertRecord, containsNative]
  | cons kv rest ih =>
      simp only [List.all_cons, Bool.and_eq_true] at h
      have hh := shallowSafe_convert kv.2 h.1
      have hrest := ih h.2
      rw [convertRecord_cons, containsNative_dict_cons]
      simp [hh, hrest]

/-- Claim C6, witness: a record of one node with scalar properties and one
scalar normalizes to a native-free output. -/
theorem c6_amended_witness :
    shallowRecord.all (fun kv => shallowSafe kv.2) = true ∧
    containsNative (.vdict (convertRecord shallowRecord)) = false :=
  ⟨by simp [shallowRecord, shallowSafe, containsNative],
   c6_amended shallowRecord (by simp [shallowRecord, shallowSafe, containsNative])⟩

/-- Claim C7: every envelope of the four operations carries a boolean
`success` flag; whenever the store (or the result-shape check after it)
raises, the envelope is the failure dictionary with `success:false`, the
exception text, and the echo of the request (query for `run_cypher_query`,
label and properties for `create_node` and `find_nodes`); and a successful
cypher run yields `success:true`. No exception escapes the handlers. -/
theorem c7_envelope_policy (store : Store) (q : String) (ps : Option NRecord)
    (label : String) (properties : NRecord)
    (flabel : Option String) (fprops : Option NRecord) (limit : Int)
    (dbout : Except String DbInfo) :
    ((envSuccess (run_cypher_query store q ps).envelope).isSome = true ∧
     (envSuccess (create_node store label properties).envelope).isSome = true ∧
     (envSuccess (find_nodes store flabel fprops limit).envelope).isSome = true ∧
     (envSuccess (get_database_info dbout)).isSome = true) ∧
    (∀ e, store.run (cypherStatement q ps) = .error e →
      (run_cypher_query store q ps).envelope =
        .vdict [("success", .vbool false), ("error", .vstr e), ("query", .vstr q)]) ∧
    (∀ recs, store.run (cypherStatement q ps) = .ok recs →
      envSuccess (run_cypher_query store q ps).envelope = some true) ∧
    (∀ e, store.run (createNodeStatement label properties) = .error e →
      (create_node store label properties).envelope = createFailEnv e label properties) ∧
    (∀ recs e, store.run (createNodeStatement label properties) = .ok recs →
      singleN recs = .error e →
      (create_node store label properties).envelope = createFailEnv e label properties) ∧
    (∀ e, store.run (findNodesStatement flabel fprops limit) = .error e →
      (find_nodes store flabel fprops limit).envelope = findFailEnv e flabel fprops) ∧
    (∀ recs e, store.run (findNodesStatement flabel fprops limit) = .ok recs →
      extractFound recs = .error e →
      (find_nodes store flabel fprops limit).envelope = findFailEnv e flabel fprops) ∧
    (∀ e, dbout = .error e →
      get_database_info dbout = .vdict [("success", .vbool false), ("error", .vstr e)]) := by
  refine ⟨⟨?_, ?_, ?_, ?_⟩, ?_, ?_, ?_, ?_, ?_, ?_, ?_⟩
  · rcases hr : store.run (cypherStatement q ps) with e | recs <;>
      simp [run_cypher_query, hr, envSuccess, dictGet, List.lookup]
  · rcases hr : store.run (createNodeStatement label properties) with e | recs
    · simp [create_node, hr, createFailEnv, envSuccess, dictGet, List.lookup]
    · rcases hs : singleN recs with e | ⟨i, ls, nps⟩ <;>
        simp [create_node, hr, hs, createFailEnv, envSuccess, dictGet, List.lookup]
  · rcases hr : store.run (findNodesStatement flabel fprops limit) with e | recs
    · simp [find_nodes, hr, findFailEnv, envSuccess, dictGet, List.lookup]
    · rcases hs : extractFound recs with e | nodes <;>
        simp [find_nodes, hr, hs, findFailEnv, envSuccess, dictGet, List.lookup]
  · rcases dbout with e | d <;> simp [get_database_info, envSuccess, dictGet, List.lookup]
  · intro e he
    simp [run_cypher_query, he]
  · intro recs hr
    simp [run_cypher_query, hr, envSuccess, dictGet, List.lookup]
  · intro e he
    simp [create_node, he]
  · intro recs e hr hs
    simp [create_node, hr, hs]
  · intro e he
    simp [find_nodes, he]
  · intro recs e hr hs
    simp [find_nodes, hr, hs]
  · intro e he
    simp [get_database_info, he]

/-- Claim C7, witness: on a store whose every interaction raises, each of
the four operations returns its failure envelope. -/
theorem c7_witness :
    (run_cypher_query downStore "RETURN 1" none).envelope =
      PyVal.vdict [("success", PyVal.vbool false),
                   ("error", PyVal.vstr "connection refused"),
                   ("query", PyVal.vstr "RETURN 1")] ∧
    (create_node downStore "Person" []).envelope =
      createFailEnv "connection refused" "Person" [] ∧
    (find_nodes downStore none none 10).envelope =
      findFailEnv "connection refused" none none ∧
    get_database_info (Except.error "connection refused") =
      PyVal.vdict [("success", PyVal.vbool false),
                   ("error", PyVal.vstr "connection refused")] := by
  have h := c7_envelope_policy downStore "RETURN 1" none "Person" [] none none 10
    (Except.error "connection refused")
  exact ⟨h.2.1 _ rfl, h.2.2.2.1 _ rfl, h.2.2.2.2.2.1 _ rfl, h.2.2.2.2.2.2.2 _ rfl⟩

/-- Claim C8, counterexample: in a store already holding ten Person nodes
named Ada, creating the Person Ada/36 node and then finding with the
name filter and the default limit 10 returns only the ten old nodes — none
of the returned property maps equals the created one. -/
theorem c8_counterexample :
    ¬ ∃ n ∈ find_nodes_on (create_node_on crowdedStore "Person" adaProps)
        (some "Person") adaFilter 10, n.props = adaProps := by
  rintro ⟨n, hn, hp⟩
  have hmem : n.props.length ∈
      (find_nodes_on (create_node_on crowdedStore "Person" adaProps)
        (some "Person") adaFilter 10).map (fun m => m.props.length) :=
    List.mem_map_of_mem _ hn
  have hmap : (find_nodes_on (create_node_on crowdedStore "Person" adaProps)
      (some "Person") adaFilter 10).map (fun m => m.props.length) =
      List.replicate 10 1 := rfl
  rw [hmap] at hmem
  have h1 : n.props.length = 1 := List.eq_of_mem_replicate hmem
  rw [hp] at h1
  simp [adaProps] at h1

/-- Claim C8, amended: the round trip holds provided fewer than 10 nodes of
the store already match the label and filter: then the freshly created node
survives the `LIMIT 10` truncation and is returned with exactly the input
property map. -/
theorem c8_amended (g : GraphStore)
    (h : (g.nodes.filter (nodeMatches (some "Person") adaFilter)).length < 10) :
    ∃ n ∈ find_nodes_on (create_node_on g "Person" adaProps)
        (some "Person") adaFilter 10, n.props = adaProps := by
  refine ⟨(⟨g.nextNid, ["Person"], adaProps⟩ : StoreNode), ?_, rfl⟩
  show (⟨g.nextNid, ["Person"], adaProps⟩ : StoreNode) ∈
    ((g.nodes ++ [(⟨g.nextNid, ["Person"], adaProps⟩ : StoreNode)]).filter
      (nodeMatches (some "Person") adaFilter)).take 10
  have hmatch : nodeMatches (some "Person") adaFilter
      ⟨g.nextNid, ["Person"], adaProps⟩ = true := rfl
  rw [List.filter_append]
  have hone : List.filter (nodeMatches (some "Person") adaFilter)
      [(⟨g.nextNid, ["Person"], adaProps⟩ : StoreNode)] =
      [(⟨g.nextNid, ["Person"], adaProps⟩ : StoreNode)] := by
    simp [List.filter, hmatch]
  rw [hone]
  have hlen : (g.nodes.filter (nodeMatches (some "Person") adaFilter) ++
      [(⟨g.nextNid, ["Person"], adaProps⟩ : StoreNode)]).length ≤ 10 := by
    simp only [List.length_append, List.length_singleton]
    omega
  rw [List.take_of_length_le hlen]
  exact List.mem_append_right _ (List.mem_singleton.mpr rfl)

/-- Claim C8, witness: on the empty store the round trip returns the
created node. -/
theorem c8_amended_witness :
    find_nodes_on (create_node_on ⟨0, []⟩ "Person" adaProps)
      (some "Person") adaFilter 10 ≠ [] := by
  obtain ⟨n, hn, _⟩ := c8_amended ⟨0, []⟩ (by decide)
  exact List.ne_nil_of_mem hn

/-- Claim C9: from a state with no driver, acquiring creates the handle
from the configured URI and credentials and caches it; acquiring again
returns the very same handle and state; releasing closes the handle and
clears the cache; and a later acquire creates a genuinely new handle. -/
theorem c9_singleton_lifecycle (cfg : DriverConfig) (s0 : DriverState) (h : s0.driver = none)
    (d1 : DriverHandle) (s1 : DriverState)
    (hacq : get_neo4j_driver cfg s0 = (d1, s1)) :
    (d1.uri = cfg.uri ∧ d1.username = cfg.username ∧ d1.password = cfg.password) ∧
    s1.driver = some d1 ∧
    get_neo4j_driver cfg s1 = (d1, s1) ∧
    (close_driver s1).driver = none ∧
    (close_driver s1).closedHids = s0.closedHids ++ [d1.hid] ∧
    (get_neo4j_driver cfg (close_driver s1)).2.driver =
      some (get_neo4j_driver cfg (close_driver s1)).1 ∧
    (get_neo4j_driver cfg (close_driver s1)).1.hid ≠ d1.hid := by
  rcases s0 with ⟨drv, nh, ch⟩
  obtain rfl : drv = none := h
  have hget : get_neo4j_driver cfg ⟨none, nh, ch⟩ =
      (⟨nh, cfg.uri, cfg.username, cfg.password⟩,
       ⟨some ⟨nh, cfg.uri, cfg.username, cfg.password⟩, nh + 1, ch⟩) := rfl
  rw [hget] at hacq
  injection hacq with h1 h2
  subst h1
  subst h2
  refine ⟨⟨rfl, rfl, rfl⟩, rfl, rfl, rfl, rfl, rfl, ?_⟩
  simp [get_neo4j_driver, close_driver]

/-- Claim C9, witness at a concrete configuration and the initial state. -/
theorem c9_witness :
    get_neo4j_driver ⟨"bolt://localhost:7687", "neo4j", "pw"⟩
        ⟨some ⟨0, "bolt://localhost:7687", "neo4j", "pw"⟩, 1, []⟩ =
      (⟨0, "bolt://localhost:7687", "neo4j", "pw"⟩,
       ⟨some ⟨0, "bolt://localhost:7687", "neo4j", "pw"⟩, 1, []⟩) :=
  (c9_singleton_lifecycle ⟨"bolt://localhost:7687", "neo4j", "pw"⟩ ⟨none, 0, []⟩ rfl
    ⟨0, "bolt://localhost:7687", "neo4j", "pw"⟩
    ⟨some ⟨0, "bolt://localhost:7687", "neo4j", "pw"⟩, 1, []⟩ rfl).2.2.1

/-- Claim C10: whatever stage of the client-shim call raises — opening the
HTTP client, the handshake, the tool invocation, or response parsing — the
shim returns the failure envelope with `success:false` and the exception
text; the parsed response passes through on success. The shim is a total
function: it never raises. -/
theorem c10_shim_total (toolName : String) (arguments : NRecord) (e : String) (v : PyVal) :
    execute_mcp_call toolName arguments (.connectError e) =
      .vdict [("success", .vbool false), ("error", .vstr e)] ∧
    execute_mcp_call toolName arguments (.handshakeError e) =
      .vdict [("success", .vbool false), ("error", .vstr e)] ∧
    execute_mcp_call toolName arguments (.callError e) =
      .vdict [("success", .vbool false), ("error", .vstr e)] ∧
    execute_mcp_call toolName arguments (.parseError e) =
      .vdict [("success", .vbool false), ("error", .vstr e)] ∧
    envSuccess (execute_mcp_call toolName arguments (.connectError e)) = some false ∧
    execute_mcp_call toolName arguments (.ok v) = v :=
  ⟨rfl, rfl, rfl, rfl, rfl, rfl⟩

/-- Claim C10, witness at an unreachable server. -/
theorem c10_witness :
    execute_mcp_call "find_nodes" []
        (.connectError "All connection attempts failed") =
      PyVal.vdict [("success", PyVal.vbool false),
                   ("error", PyVal.vstr "All connection attempts failed")] :=
  (c10_shim_total "find_nodes" [] "All connection attempts failed" PyVal.vnull).1
